import Mathlib

/-!
Verification of the FullScreenCover decision-and-control engine.

This file gives a shallow embedding of the core of the repository
(`main.py`, `modules/audio_devices.py`, `modules/lock.py`,
`modules/powerpoint_detection.py`, `modules/presentation_mode.py`)
and proves properties of it.  Host-API calls (the Windows audio mixer,
window manager, COM automation, power management, registry) are modelled
as environment records whose boolean fields say whether each narrow call
succeeds and what it observes; the control flow around those calls is
translated from the Python source.
-/

set_option linter.unusedVariables false

/-! ## Audio guard: `modules/audio_devices.py`, class `VolumeController` -/

/-- One audio session as seen through `AudioUtilities.GetAllSessions()`:
its identity, its `State` (active = 1), whether `SimpleAudioVolume` is
non-null, its current mute/volume, and whether Get/Set calls on it raise. -/
structure AudioSession where
  sid : Nat
  state : Int
  hasVolume : Bool
  mute : Bool
  vol : ℚ
  opFails : Bool
  deriving Repr, DecidableEq

/-- The audio mixer environment: availability of the endpoint-volume
interface, which endpoint calls raise, the device's current mute/volume,
and the session list (with a flag for `GetAllSessions` raising). -/
structure AudioEnv where
  interfaceAvailable : Bool
  getMuteFails : Bool
  getVolumeFails : Bool
  setMuteFails : Bool
  setVolumeFails : Bool
  sessionsQueryFails : Bool
  deviceMute : Bool
  deviceVolume : ℚ
  sessions : List AudioSession
  deriving Repr, DecidableEq

/-- The mutable fields of `VolumeController`: the saved device record
(`previous_mute_state`, `previous_volume`) and the saved per-session
records `_touched_sessions` as (sid, prior mute, prior volume). -/
structure VolumeController where
  previous_mute_state : Option Bool
  previous_volume : Option ℚ
  touched_sessions : List (Nat × Bool × ℚ)
  deriving Repr, DecidableEq

/-- Embeds `VolumeController.get_mute_state`: returns `False` when the interface
is unavailable or `GetMute` raises, else the device mute. -/
def get_mute_state (env : AudioEnv) : Bool :=
  if !env.interfaceAvailable then false
  else if env.getMuteFails then false
  else env.deviceMute

/-- Embeds `VolumeController.get_volume`: returns `0.5` when the interface is
unavailable or `GetMasterVolumeLevelScalar` raises, else the device volume. -/
def get_volume (env : AudioEnv) : ℚ :=
  if !env.interfaceAvailable then 1/2
  else if env.getVolumeFails then 1/2
  else env.deviceVolume

/-- Embeds `VolumeController.set_mute`: returns whether the call succeeded and the
resulting mixer state. -/
def set_mute (m : Bool) (env : AudioEnv) : Bool × AudioEnv :=
  if !env.interfaceAvailable then (false, env)
  else if env.setMuteFails then (false, env)
  else (true, { env with deviceMute := m })

/-- Embeds `VolumeController.set_volume`: returns whether the call succeeded and the
resulting mixer state. -/
def set_volume (v : ℚ) (env : AudioEnv) : Bool × AudioEnv :=
  if !env.interfaceAvailable then (false, env)
  else if env.setVolumeFails then (false, env)
  else (true, { env with deviceVolume := v })

/-- Embeds `VolumeController._get_active_sessions`: `[]` when `GetAllSessions`
raises, else the sessions with `State == 1` and a non-null
`SimpleAudioVolume`. -/
def get_active_sessions (env : AudioEnv) : List AudioSession :=
  if env.sessionsQueryFails then []
  else env.sessions.filter (fun s => s.state == 1 && s.hasVolume)

/-- Embeds `VolumeController.save_current_state`: a no-op when a record is already
saved (`previous_mute_state is not None`); otherwise captures device
mute+volume and, for every active session whose reads do not raise, the
session's mute+volume. -/
def save_current_state (vc : VolumeController) (env : AudioEnv) : VolumeController :=
  if vc.previous_mute_state.isSome then vc
  else
    { previous_mute_state := some (get_mute_state env)
      previous_volume := some (get_volume env)
      touched_sessions :=
        (get_active_sessions env).filterMap
          (fun s => if s.opFails then none else some (s.sid, s.mute, s.vol)) }

/-- Result of `restore_previous_state`: `completed = false` models the
`TypeError` raised by the log f-string (it formats `previous_volume` with
`:.2f`, which raises when `previous_volume` is `None`). -/
structure RestoreResult where
  completed : Bool
  vc : VolumeController
  env : AudioEnv
  deriving Repr, DecidableEq

/-- Replay the saved `_touched_sessions` records onto the session list;
sessions whose Set calls raise are skipped (`except: pass`). -/
def restoreSessions (ts : List (Nat × Bool × ℚ)) (env : AudioEnv) : AudioEnv :=
  ts.foldl
    (fun e t =>
      { e with sessions :=
          e.sessions.map (fun s =>
            if s.sid == t.1 && !s.opFails then { s with mute := t.2.1, vol := t.2.2 } else s) })
    env

/-- Embeds `VolumeController.restore_previous_state`: re-applies the saved device
mute and volume when present, then logs
`f"音量状態復元: 音量={self.previous_volume:.2f}, ..."` — which raises
`TypeError` when `previous_volume` is `None` (`completed = false`; nothing
past the log line runs) — then restores the touched sessions and clears
the record. -/
def restore_previous_state (vc : VolumeController) (env : AudioEnv) : RestoreResult :=
  let env1 := match vc.previous_mute_state with
    | some m => (set_mute m env).2
    | none => env
  let env2 := match vc.previous_volume with
    | some v => (set_volume v env1).2
    | none => env1
  match vc.previous_volume with
  | none => ⟨false, vc, env2⟩
  | some _ =>
    let env3 := restoreSessions vc.touched_sessions env2
    ⟨true, ⟨none, none, []⟩, env3⟩

/-- Result of `mute_for_screensaver`: the returned boolean and the
controller/mixer states. -/
structure MuteResult where
  ret : Bool
  vc : VolumeController
  env : AudioEnv
  deriving Repr, DecidableEq

/-- Fallback layer 2 of `mute_for_screensaver`: force-mute and zero every
active session whose Set calls do not raise. -/
def sessionsForceMute (env : AudioEnv) : AudioEnv :=
  if env.sessionsQueryFails then env
  else
    { env with sessions :=
        env.sessions.map (fun s =>
          if s.state == 1 && s.hasVolume && !s.opFails then { s with mute := true, vol := 0 }
          else s) }

/-- Embeds `VolumeController.mute_for_screensaver`: save state, attempt device
mute; if the call failed or the post-check still reads unmuted, force the
endpoint volume to 0; then force-mute all active sessions; finally
`return True` — unconditionally. -/
def mute_for_screensaver (vc : VolumeController) (env : AudioEnv) : MuteResult :=
  let vc' := save_current_state vc env
  let r := set_mute true env
  let env2 := if !r.1 || !get_mute_state r.2 then (set_volume 0 r.2).2 else r.2
  let env3 := sessionsForceMute env2
  ⟨true, vc', env3⟩

/-- Embeds `VolumeController.unmute_after_screensaver`: delegates to
`restore_previous_state` (its own extra log line cannot raise). -/
def unmute_after_screensaver (vc : VolumeController) (env : AudioEnv) : RestoreResult :=
  restore_previous_state vc env

/-- Modelled from the spec: "Returns true if any layer succeeded."  The
three layers of `mute_for_overlay` in the spec's words: device-level mute
(accepted and post-check muted), endpoint volume forced to zero (attempted
only when the first layer failed), and force-muting at least one active
application session. -/
def spec_mute_any_layer_succeeded (env : AudioEnv) : Bool :=
  let r := set_mute true env
  let deviceMuteOk := r.1 && get_mute_state r.2
  let volumeZeroOk := !deviceMuteOk && (set_volume 0 r.2).1
  let sessionOk := !((get_active_sessions env).filter (fun s => !s.opFails)).isEmpty
  deviceMuteOk || volumeZeroOk || sessionOk

/-! ## Overlay episode: `main.py`, `ScreensaverController.show_screensaver_with_mute`
and the showing branch of `ScreensaverController.monitor` -/

/-- Observable calls made during one overlay episode.  `presEnable` /
`presDisable` correspond to
`presentation_controller.enable_presentation_mode()` /
`disable_presentation_mode()` — included so their absence from an
episode's trace is checkable. -/
inductive EpisodeEvent where
  | setShowing (b : Bool)
  | muteCall
  | renderCall
  | unmuteCall
  | presEnable
  | presDisable
  deriving Repr, DecidableEq

/-- Outcome of `show_screensaver_with_mute`: whether an exception
propagates out of the method, the controller/mixer states, and the trace
of calls made. -/
structure EpisodeOut where
  raised : Bool
  vc : VolumeController
  env : AudioEnv
  trace : List EpisodeEvent
  deriving Repr, DecidableEq

/-- Embeds `ScreensaverController.show_screensaver_with_mute`.  The
`mute_on_screensaver` key is read twice — once at entry and once in the
`finally` block — and the tray thread may change it in between, so the two
reads are separate parameters.  `rendererRaises` models
`show_screensaver` raising.  The `finally` block restores audio only when
`muted` is set and the exit-time read of the key is still true; a raise
from the restore (or from the renderer) propagates out. -/
def show_screensaver_with_mute (muteCfgEntry muteCfgExit rendererRaises : Bool)
    (vc : VolumeController) (env : AudioEnv) : EpisodeOut :=
  let entry : Bool × VolumeController × AudioEnv × List EpisodeEvent :=
    if muteCfgEntry then
      let m := mute_for_screensaver vc env
      (m.ret, m.vc, m.env, [EpisodeEvent.muteCall])
    else (false, vc, env, [])
  let muted := entry.1
  let vc1 := entry.2.1
  let env1 := entry.2.2.1
  let tr := entry.2.2.2 ++ [EpisodeEvent.renderCall]
  if muted && muteCfgExit then
    let u := unmute_after_screensaver vc1 env1
    ⟨rendererRaises || !u.completed, u.vc, u.env, tr ++ [EpisodeEvent.unmuteCall]⟩
  else
    ⟨rendererRaises, vc1, env1, tr⟩

/-- Outcome of the showing branch of `ScreensaverController.monitor`:
the `showing` flag after the branch, the states, and the trace. -/
structure MonitorOut where
  showing : Bool
  vc : VolumeController
  env : AudioEnv
  trace : List EpisodeEvent
  deriving Repr, DecidableEq

/-- The `Idle → Showing → Idle` branch of `ScreensaverController.monitor`:
`self.showing = True`, then `show_screensaver_with_mute` inside
`try/except/finally` — every exception is swallowed by the `except` and the
`finally` clears `showing`. -/
def monitor_show_episode (muteCfgEntry muteCfgExit rendererRaises : Bool)
    (vc : VolumeController) (env : AudioEnv) : MonitorOut :=
  let r := show_screensaver_with_mute muteCfgEntry muteCfgExit rendererRaises vc env
  ⟨false, r.vc, r.env,
    EpisodeEvent.setShowing true :: r.trace ++ [EpisodeEvent.setShowing false]⟩

/-! ## Configuration loading: `main.py`, `ScreensaverController.load_config` -/

/-- The `presentation_features` sub-object of `config.json`; each
recognized key may be absent. -/
structure FeaturesJson where
  disable_screensaver : Option Bool
  prevent_sleep : Option Bool
  silent_notifications : Option Bool
  block_notifications : Option Bool
  deriving Repr, DecidableEq

/-- A decoded `config.json` object; each recognized key may be absent. -/
structure ConfigJson where
  interval : Option Int
  media_file : Option String
  mute_on_screensaver : Option Bool
  suppress_during_video : Option Bool
  suppress_large_window : Option Bool
  enable_presentation_mode : Option Bool
  presentation_mode_noticesilent : Option Bool
  presentation_features : Option FeaturesJson
  deriving Repr, DecidableEq

/-- What `open` + `json.load` can find at `CONFIG_PATH`: no file, a file
whose content `json.load` rejects, or a decoded JSON object. -/
inductive ConfigStore where
  | missing
  | undecodable
  | decoded (j : ConfigJson)
  deriving Repr, DecidableEq

/-- The default written by the `except FileNotFoundError` branch of
`load_config` (media_file is `get_resource_path('assets/image.png')`,
modelled by its relative name). -/
def defaultConfigJson : ConfigJson :=
  { interval := some 60
    media_file := some "assets/image.png"
    mute_on_screensaver := some true
    suppress_during_video := some true
    suppress_large_window := some false
    enable_presentation_mode := some false
    presentation_mode_noticesilent := none
    presentation_features := some ⟨some true, some true, some true, some true⟩ }

/-- The key-filling second half of `load_config`, applied to a decoded
object: fill the four boolean keys when absent, migrate
`presentation_mode_noticesilent` into
`presentation_features.silent_notifications`, then default
`presentation_features` when still absent.  `interval` and `media_file`
have no such branch. -/
def fillConfigDefaults (j : ConfigJson) : ConfigJson :=
  let j1 := { j with
    mute_on_screensaver := some (j.mute_on_screensaver.getD true)
    suppress_during_video := some (j.suppress_during_video.getD true)
    suppress_large_window := some (j.suppress_large_window.getD false)
    enable_presentation_mode := some (j.enable_presentation_mode.getD false) }
  let j2 := match j1.presentation_mode_noticesilent with
    | some old =>
      { j1 with
        presentation_mode_noticesilent := none
        presentation_features :=
          some { (j1.presentation_features.getD ⟨none, none, none, none⟩) with
                   silent_notifications := some old } }
    | none => j1
  match j2.presentation_features with
  | some _ => j2
  | none => { j2 with presentation_features := some ⟨some true, some true, some true, some true⟩ }

/-- Embeds `ScreensaverController.load_config`: a missing file is caught
(`except FileNotFoundError`) and replaced by the full default; content
that `json.load` rejects raises `json.JSONDecodeError`, which no handler
catches (`Except.error`); a decoded object gets the defaults filled in. -/
def load_config (store : ConfigStore) : Except Unit ConfigJson :=
  match store with
  | .missing => .ok defaultConfigJson
  | .undecodable => .error ()
  | .decoded j => .ok (fillConfigDefaults j)

/-! ## Presentation mode guard: `modules/presentation_mode.py`,
class `PresentationModeController` -/

/-- The resolved `self.features` dict of `PresentationModeController`. -/
structure PresFeatures where
  disable_screensaver : Bool
  prevent_sleep : Bool
  block_notifications : Bool
  deriving Repr, DecidableEq

/-- Host power-management / notification environment: availability of the
PowerRequest API, outcomes of `PowerCreateRequest` (a valid handle ≠ -1),
the two `PowerSetRequest` calls, `SetThreadExecutionState` (≠ 0), and the
whole `_enable_notification_blocking` registry path. -/
structure PowerEnv where
  power_request_available : Bool
  createRequestOk : Bool
  setDisplayOk : Bool
  setSystemOk : Bool
  setThreadExecOk : Bool
  notifBlockOk : Bool
  deriving Repr, DecidableEq

/-- Embeds `PresentationModeController._enable_power_management`: try the
PowerRequest API first (`PowerCreateRequest`, then one `PowerSetRequest`
per requested flag, all of which must succeed on a non-empty list), and
fall back to `SetThreadExecutionState` when that failed. -/
def enable_power_management (f : PresFeatures) (env : PowerEnv) : Bool :=
  let viaRequest :=
    if env.power_request_available && env.createRequestOk then
      let reqs := (if f.disable_screensaver then [env.setDisplayOk] else []) ++
                  (if f.prevent_sleep then [env.setSystemOk] else [])
      reqs.all id && !reqs.isEmpty
    else false
  if viaRequest then true else env.setThreadExecOk

/-- Embeds `total_features` of `enable_presentation_mode`: the power-management
unit (`disable_screensaver` or `prevent_sleep`) and the
notification-blocking unit, when configured. -/
def attemptedFeatures (f : PresFeatures) : Nat :=
  (if f.disable_screensaver || f.prevent_sleep then 1 else 0) +
  (if f.block_notifications then 1 else 0)

/-- Embeds `success_count` of `enable_presentation_mode`: attempted units whose
host call succeeded. -/
def succeededFeatures (f : PresFeatures) (env : PowerEnv) : Nat :=
  (if f.disable_screensaver || f.prevent_sleep then
     (if enable_power_management f env then 1 else 0) else 0) +
  (if f.block_notifications then (if env.notifBlockOk then 1 else 0) else 0)

/-- Embeds `PresentationModeController.enable_presentation_mode`: an early
`return True` when already active; otherwise
`success = success_count > 0 and (total_features == 0 or
success_count >= total_features * 0.5)` — the `* 0.5` comparison is exact
over ℚ for the reachable totals — and `presentation_mode_active` is set
to `success`.  Returns (returned bool, `presentation_mode_active` after). -/
def enable_presentation_mode (f : PresFeatures) (active : Bool) (env : PowerEnv) :
    Bool × Bool :=
  if active then (true, active)
  else
    let t := attemptedFeatures f
    let s := succeededFeatures f env
    let success := decide (0 < s) && (t == 0 || decide ((t : ℚ) / 2 ≤ (s : ℚ)))
    (success, success)

/-- Embeds `PresentationModeController.is_presentation_mode_active`: returns the
`presentation_mode_active` field. -/
def is_presentation_mode_active (presentation_mode_active : Bool) : Bool :=
  presentation_mode_active

/-! ## Suppression decision engine: `modules/lock.py` and
`modules/powerpoint_detection.py` -/

/-- ASCII lowercase of one character (Python's `str.lower()`; the name
lists compared against are ASCII or katakana, which `lower()` leaves
unchanged). -/
def charLower (c : Char) : Char :=
  if 65 ≤ c.toNat ∧ c.toNat ≤ 90 then Char.ofNat (c.toNat + 32) else c

/-- ASCII lowercase of a string (Python's `str.lower()`). -/
def strLower (s : String) : String :=
  ⟨s.data.map charLower⟩

/-- Python's substring test `pat in s`, on character lists. -/
def charsContains (pat : List Char) : List Char → Bool
  | [] => pat.isEmpty
  | c :: t => pat.isPrefixOf (c :: t) || charsContains pat t

/-- Python's substring test `pat in s`, on strings. -/
def strHas (s pat : String) : Bool :=
  charsContains pat.data s.data

/-- A foreground-window record as built by `get_foreground_window_info`
(the geometry probing that derives `is_fullscreen` happens at the host
boundary; the record carries its result). -/
structure WindowInfo where
  title : String
  class_name : String
  width : Int
  height : Int
  is_fullscreen : Bool
  deriving Repr, DecidableEq

/-- The `video_players` name list of `is_video_player_window`. -/
def videoPlayers : List String :=
  ["vlc", "mpc-hc", "mpc-be", "kmplayer", "potplayer", "mpv",
   "windows media player", "groove", "movies & tv",
   "メディア プレーヤー", "media player", "video player",
   "netflix", "amazon prime", "hulu", "disney+",
   "twitch", "crunchyroll", "funimation",
   "gom player", "smplayer", "bsplayer", "winamp",
   "kodi", "plex", "jellyfin", "emby"]

/-- Embeds `is_video_player_window`: any known player substring in the lowercased
title or class, or the Windows 11 ApplicationFrameWindow special case. -/
def is_video_player_window (w : WindowInfo) : Bool :=
  let t := strLower w.title
  let c := strLower w.class_name
  videoPlayers.any (fun p => strHas t p || strHas c p) ||
  (c == "applicationframewindow" &&
    (strHas t "メディア" || strHas t "media" || strHas t "player"))

/-- The `browser_classes` list of `is_youtube_fullscreen`. -/
def browserClasses : List String :=
  ["chrome_widgetwin", "mozillawindowclass", "applicationframewindow"]

/-- The `video_services` keyword list of `is_youtube_fullscreen`. -/
def videoServices : List String :=
  ["youtube", "netflix", "amazon prime", "hulu", "disney+",
   "twitch", "crunchyroll", "funimation", "abematv", "nicovideo",
   "bilibili", "vimeo", "dailymotion"]

/-- Embeds `is_youtube_fullscreen`: a browser-class window, a video-service
keyword in the title, and fullscreen. -/
def is_youtube_fullscreen (w : WindowInfo) : Bool :=
  let t := strLower w.title
  let c := strLower w.class_name
  browserClasses.any (fun b => strHas c b) &&
  videoServices.any (fun s => strHas t s) &&
  w.is_fullscreen

/-- The `powerpoint_slideshow_classes` list. -/
def pptSlideshowClasses : List String :=
  ["pptframeclass", "screenclass"]

/-- Embeds `is_powerpoint_slideshow_running`, applied to the foreground window it
queries: a PowerPoint-titled or slideshow-classed window that is
fullscreen. -/
def is_powerpoint_slideshow_running (w : WindowInfo) : Bool :=
  (strHas (strLower w.title) "powerpoint" ||
   pptSlideshowClasses.any (fun c => strHas (strLower w.class_name) c)) &&
  w.is_fullscreen

/-- The module-level `_video_playing_cache` of `lock.py` (its
`cache_duration` is the constant 1.5 s). -/
structure VideoCache where
  timestamp : ℚ
  result : Bool
  deriving Repr, DecidableEq

/-- One process from `psutil.process_iter(['name'])`: its name, the CPU
readings the two measurement rounds would observe, and whether
`cpu_percent` raises for it (excluding it from the targets). -/
structure ProcInfo where
  name : String
  cpu1 : ℚ
  cpu2 : ℚ
  accessFails : Bool
  deriving Repr, DecidableEq

/-- The process-probe environment of `is_video_playing`; `iterFails`
models `psutil.process_iter` itself raising (caught by the outer
`except`, which happens before any sleep). -/
structure CpuEnv where
  iterFails : Bool
  procs : List ProcInfo
  deriving Repr, DecidableEq

/-- The per-class CPU threshold of `is_video_playing`: 3% for the named
player processes, 1.5% for `media`+`player` processes, none otherwise. -/
def targetThreshold (name : String) : Option ℚ :=
  let n := strLower name
  if ["vlc", "mpc-hc", "kmplayer", "potplayer", "mpv"].any (fun p => strHas n p) then some 3
  else if strHas n "media" && strHas n "player" then some (3/2)
  else none

/-- The target list built by the first loop of `is_video_playing`. -/
def videoTargets (env : CpuEnv) : List (ProcInfo × ℚ) :=
  env.procs.filterMap (fun p =>
    if p.accessFails then none
    else (targetThreshold p.name).map (fun t => (p, t)))

/-- Result of `is_video_playing`: the returned boolean, the cache
afterwards, and whether execution went past the cache-validity check
(re-running the CPU probe). -/
structure IvpResult where
  result : Bool
  cache : VideoCache
  sampled : Bool
  deriving Repr, DecidableEq

/-- Embeds `is_video_playing`: serve from the cache when the call is within
1.5 s of the cached timestamp; otherwise re-probe — an exception from
`process_iter` or an empty target list caches `False`; else two
measurement rounds over the targets, any round with any target above its
threshold counts as playing — and overwrite the cache with (now, result).
(`process_iter` raises before the sleeps, so the `except` branch's fresh
`time.time()` read coincides with the entry read `now`.) -/
def is_video_playing (now : ℚ) (cache : VideoCache) (env : CpuEnv) : IvpResult :=
  if now - cache.timestamp < 3/2 then ⟨cache.result, cache, false⟩
  else if env.iterFails then ⟨false, ⟨now, false⟩, true⟩
  else
    let ts := videoTargets env
    if ts.isEmpty then ⟨false, ⟨now, false⟩, true⟩
    else
      let round1 := ts.any (fun pt => decide (pt.2 < pt.1.cpu1))
      let round2 := ts.any (fun pt => decide (pt.2 < pt.1.cpu2))
      let r := round1 || round2
      ⟨r, ⟨now, r⟩, true⟩

/-- Embeds `is_powerpoint_high_cpu`: `get_cpu_usage_for_process('powerpnt')`
above the 10% threshold. -/
def is_powerpoint_high_cpu (pptCpu : ℚ) : Bool :=
  decide (10 < pptCpu)

/-- One media shape of the current slide (`shape.Type == 16`):
`std` is the play state found by `_try_standard_playstate` (directly or by
property inference), `alt` the one found by `_try_alternative_playstate`
via an OLE property; `none` means the method set no state.
(`_try_animation_state` never sets a state.) -/
structure MediaShape where
  std : Option Int
  alt : Option Int
  deriving Repr, DecidableEq

/-- The final `media_info['play_state']` after the three access methods:
the standard method's state, else the alternative method's. -/
def mediaPlayState (m : MediaShape) : Option Int :=
  match m.std with
  | some v => some v
  | none => m.alt

/-- Embeds `PowerPointDetector._check_media_playback_state`: any shape with state
1 suppresses (returns the playing shapes); otherwise any state-unknown
shape yields `(False, unknown)`; otherwise `(False, [])`. -/
def check_media_playback_state (shapes : List MediaShape) : Bool × List MediaShape :=
  let playing := shapes.filter (fun m => mediaPlayState m == some 1)
  let unknown := shapes.filter (fun m => (mediaPlayState m).isNone)
  if 0 < playing.length then (true, playing)
  else if 0 < unknown.length then (false, unknown)
  else (false, [])

/-- The PowerPoint COM environment of `is_video_playing_in_slideshow`:
whether `GetActiveObject` finds the application, whether
`_check_slideshow_window` passes (slideshow open, foreground,
fullscreen), and the media shapes of the current slide. -/
structure PptEnv where
  appObtained : Bool
  slideshowWindowOk : Bool
  shapes : List MediaShape
  deriving Repr, DecidableEq

/-- Embeds `is_powerpoint_video_playing` /
`PowerPointDetector.is_video_playing_in_slideshow`: `False` without the
win32 COM modules, the application object, a fullscreen slideshow window,
or any media shape; otherwise the playback-state check's verdict. -/
def is_powerpoint_video_playing (win32Available : Bool) (e : PptEnv) : Bool :=
  if !win32Available then false
  else if !e.appObtained then false
  else if !e.slideshowWindowOk then false
  else if e.shapes.isEmpty then false
  else (check_media_playback_state e.shapes).1

/-- The host environment of one `should_suppress_screensaver` call. -/
structure SuppressEnv where
  window : Option WindowInfo
  cpu : CpuEnv
  pptComAvailable : Bool
  comCallRaises : Bool
  ppt : PptEnv
  pptCpu : ℚ
  deriving Repr, DecidableEq

/-- Step 4 of `should_suppress_screensaver` once a PowerPoint slideshow
window is detected: the COM verdict when the COM path is importable and
does not raise, else the `is_powerpoint_high_cpu` fallback. -/
def powerpoint_step_verdict (env : SuppressEnv) : Bool :=
  if env.pptComAvailable then
    if !env.comCallRaises then is_powerpoint_video_playing env.pptComAvailable env.ppt
    else is_powerpoint_high_cpu env.pptCpu
  else is_powerpoint_high_cpu env.pptCpu

/-- Embeds `should_suppress_screensaver`: no window → allow; else the four
ordered checks — fullscreen player with confirmed playback; (config-gated)
large player window with confirmed playback; fullscreen browser video
service; PowerPoint slideshow with the step-4 verdict — else allow.
Returns the verdict and the video cache after the one `is_video_playing`
call. -/
def should_suppress_screensaver (suppress_large_window : Bool) (now : ℚ)
    (cache : VideoCache) (env : SuppressEnv) : Bool × VideoCache :=
  match env.window with
  | none => (false, cache)
  | some w =>
    let isPlayer := is_video_player_window w
    let ivp := is_video_playing now cache env.cpu
    let playing := ivp.result
    let c' := ivp.cache
    if isPlayer && w.is_fullscreen && playing then (true, c')
    else if suppress_large_window && isPlayer &&
            decide (1200 < w.width) && decide (800 < w.height) && playing then (true, c')
    else if is_youtube_fullscreen w then (true, c')
    else if is_powerpoint_slideshow_running w then (powerpoint_step_verdict env, c')
    else (false, c')

/-! ## Helper lemmas -/

/-- A save always leaves a non-null record. -/
lemma save_current_state_isSome (vc : VolumeController) (env : AudioEnv) :
    (save_current_state vc env).previous_mute_state.isSome = true := by
  unfold save_current_state
  split <;> simp_all

/-- A save on a non-null record is the identity. -/
lemma save_current_state_of_isSome (vc : VolumeController) (env : AudioEnv)
    (h : vc.previous_mute_state.isSome = true) : save_current_state vc env = vc := by
  simp [save_current_state, h]

/-- Setting the endpoint volume does not touch the endpoint mute. -/
lemma set_volume_deviceMute (v : ℚ) (env : AudioEnv) :
    ((set_volume v env).2).deviceMute = env.deviceMute := by
  unfold set_volume
  split
  · rfl
  · split <;> rfl

/-- Force-muting the sessions does not touch the endpoint mute. -/
lemma sessionsForceMute_deviceMute (env : AudioEnv) :
    (sessionsForceMute env).deviceMute = env.deviceMute := by
  unfold sessionsForceMute
  split <;> rfl

/-! ## Claims -/

/-- Claim C2, counterexample: with the endpoint-volume interface
unavailable and the session query raising, no mute layer succeeds, yet
`mute_for_screensaver` still returns `True` — the claim's "when every
layer fails the call returns false" is wrong on this code. -/
theorem C2_counterexample :
    spec_mute_any_layer_succeeded ⟨false, false, false, false, false, true, false, 1/2, []⟩ = false ∧
    (mute_for_screensaver ⟨none, none, []⟩
      ⟨false, false, false, false, false, true, false, 1/2, []⟩).ret = true := by
  exact ⟨rfl, rfl⟩

/-- Claim C2, amended: `mute_for_screensaver` returns `True`
unconditionally, whether or not any mute layer succeeded (the overlay
proceeds regardless; audio is best-effort). -/
theorem C2_mute_always_returns_true (vc : VolumeController) (env : AudioEnv) :
    (mute_for_screensaver vc env).ret = true :=
  rfl

/-- Claim C3 (code bug): a completing restore clears the saved record, but
a second restore on the cleared record does not complete normally — the
log f-string formats `previous_volume` (`None`) with `:.2f` and raises
`TypeError` (`completed = false`), although it indeed changes no audio
state and no controller state. -/
theorem C3_second_restore_raises (m : Bool) (v : ℚ) (ts : List (Nat × Bool × ℚ))
    (env env2 : AudioEnv) :
    ((restore_previous_state ⟨some m, some v, ts⟩ env).completed = true ∧
     (restore_previous_state ⟨some m, some v, ts⟩ env).vc = ⟨none, none, []⟩) ∧
    restore_previous_state ⟨none, none, []⟩ env2 = ⟨false, ⟨none, none, []⟩, env2⟩ ∧
    unmute_after_screensaver ⟨none, none, []⟩ env2 = ⟨false, ⟨none, none, []⟩, env2⟩ := by
  exact ⟨⟨rfl, rfl⟩, rfl, rfl⟩

/-- Claim C4: two `mute_for_screensaver` calls with no restore in between
capture the audio state only once — the saved record after the second
call equals the record after the first (the second save is a no-op on a
non-null record). -/
theorem C4_second_save_is_noop (vc : VolumeController) (env : AudioEnv) :
    (mute_for_screensaver (mute_for_screensaver vc env).vc
        (mute_for_screensaver vc env).env).vc.previous_mute_state
        = (mute_for_screensaver vc env).vc.previous_mute_state ∧
    (mute_for_screensaver (mute_for_screensaver vc env).vc
        (mute_for_screensaver vc env).env).vc.previous_volume
        = (mute_for_screensaver vc env).vc.previous_volume ∧
    (mute_for_screensaver (mute_for_screensaver vc env).vc
        (mute_for_screensaver vc env).env).vc.touched_sessions
        = (mute_for_screensaver vc env).vc.touched_sessions := by
  have key : (mute_for_screensaver (mute_for_screensaver vc env).vc
      (mute_for_screensaver vc env).env).vc = (mute_for_screensaver vc env).vc :=
    save_current_state_of_isSome _ _ (save_current_state_isSome vc env)
  exact ⟨by rw [key], by rw [key], by rw [key]⟩

/-- Claim C1 (code bug): in every overlay episode the showing flag is
false afterwards and the Audio Guard behaves as modelled, but the
Presentation Mode Guard is never acquired nor released — the episode's
trace contains zero `enable_presentation_mode` and zero
`disable_presentation_mode` calls on every path, renderer exception
included, contradicting the claimed acquire/release-exactly-once. -/
theorem C1_no_presentation_guard_in_episode (mE mX rr : Bool)
    (vc : VolumeController) (env : AudioEnv) :
    (monitor_show_episode mE mX rr vc env).showing = false ∧
    (monitor_show_episode mE mX rr vc env).trace.count EpisodeEvent.presEnable = 0 ∧
    (monitor_show_episode mE mX rr vc env).trace.count EpisodeEvent.presDisable = 0 := by
  cases mE <;> cases mX <;> exact ⟨rfl, rfl, rfl⟩

/-- Claim C10: when `mute_for_screensaver` ran at episode entry (the
`mute_on_screensaver` key read true, and the call returned true) but the
key reads false in the `finally` block, `unmute_after_screensaver` is not
invoked, the saved record survives un-cleared, and the mixer keeps the
state the mute left (in particular the device stays muted whenever the
device-mute layer had succeeded); with the key still true on exit the
restore is invoked exactly once. -/
theorem C10_exit_honors_current_mute_flag (rr : Bool) (vc : VolumeController) (env : AudioEnv) :
    (show_screensaver_with_mute true false rr vc env).trace.count EpisodeEvent.unmuteCall = 0 ∧
    (show_screensaver_with_mute true false rr vc env).vc = (mute_for_screensaver vc env).vc ∧
    (show_screensaver_with_mute true false rr vc env).env = (mute_for_screensaver vc env).env ∧
    (show_screensaver_with_mute true false rr vc env).vc.previous_mute_state.isSome = true ∧
    (show_screensaver_with_mute true true rr vc env).trace.count EpisodeEvent.unmuteCall = 1 ∧
    (env.interfaceAvailable = true → env.setMuteFails = false →
      (show_screensaver_with_mute true false rr vc env).env.deviceMute = true) := by
  refine ⟨rfl, rfl, rfl, save_current_state_isSome vc env, rfl, fun h1 h2 => ?_⟩
  show (mute_for_screensaver vc env).env.deviceMute = true
  have hexp : (mute_for_screensaver vc env).env
      = sessionsForceMute
          (if !(set_mute true env).1 || !get_mute_state (set_mute true env).2
           then (set_volume 0 (set_mute true env).2).2 else (set_mute true env).2) := rfl
  have hm : set_mute true env = (true, { env with deviceMute := true }) := by
    simp [set_mute, h1, h2]
  rw [hexp, sessionsForceMute_deviceMute, hm]
  split
  · rw [set_volume_deviceMute]
  · rfl

/-- Witness for C10 at a concrete mixer: interface available, device mute
accepted; the episode with the flag flipped off mid-way leaves the device
muted and never calls the restore. -/
theorem C10_witness :
    (⟨true, false, false, false, false, false, false, 1/2, []⟩ : AudioEnv).interfaceAvailable = true ∧
    (show_screensaver_with_mute true false false ⟨none, none, []⟩
        ⟨true, false, false, false, false, false, false, 1/2, []⟩).env.deviceMute = true ∧
    (show_screensaver_with_mute true false false ⟨none, none, []⟩
        ⟨true, false, false, false, false, false, false, 1/2, []⟩).trace.count
        EpisodeEvent.unmuteCall = 0 := by
  refine ⟨rfl, ?_, ?_⟩
  · exact (C10_exit_honors_current_mute_flag false ⟨none, none, []⟩
      ⟨true, false, false, false, false, false, false, 1/2, []⟩).2.2.2.2.2 rfl rfl
  · exact (C10_exit_honors_current_mute_flag false ⟨none, none, []⟩
      ⟨true, false, false, false, false, false, false, 1/2, []⟩).1

/-- Claim C8, counterexample: content that `json.load` rejects raises out
of `load_config` — only `FileNotFoundError` is caught — contradicting
"an unreadable store ... results in the full default configuration". -/
theorem C8_counterexample :
    load_config ConfigStore.undecodable = Except.error () := by
  exact rfl

/-- Claim C8, amended: a missing file yields the full default
configuration, and a decoded object never raises — the four boolean keys
and `presentation_features` are filled with fixed defaults when absent,
while `interval` and `media_file` are left exactly as stored (they have
no defaulting branch) — but undecodable content raises
`json.JSONDecodeError` out of the loader. -/
theorem C8_load_config_defaults :
    load_config ConfigStore.missing = Except.ok defaultConfigJson ∧
    ∀ j : ConfigJson, ∃ c : ConfigJson,
      load_config (ConfigStore.decoded j) = Except.ok c ∧
      c.mute_on_screensaver.isSome = true ∧
      c.suppress_during_video.isSome = true ∧
      c.suppress_large_window.isSome = true ∧
      c.enable_presentation_mode.isSome = true ∧
      c.presentation_features.isSome = true ∧
      c.interval = j.interval ∧
      c.media_file = j.media_file := by
  refine ⟨rfl, fun j => ⟨fillConfigDefaults j, rfl, ?_⟩⟩
  obtain ⟨i, mf, mu, sv, slw, ep, pn, pf⟩ := j
  cases pn <;> cases pf <;> simp [fillConfigDefaults]

/-- Rational form of the aggregate check: `s >= t * 0.5` over ℚ is
`t ≤ 2 * s` over ℕ. -/
lemma rat_half_le_iff (s t : ℕ) : ((t : ℚ) / 2 ≤ (s : ℚ)) ↔ t ≤ 2 * s := by
  rw [div_le_iff₀ (by norm_num : (0 : ℚ) < 2)]
  constructor
  · intro h
    have h' : t ≤ s * 2 := by exact_mod_cast h
    omega
  · intro h
    have h' : t ≤ s * 2 := by omega
    exact_mod_cast h'

/-- Claim C9: starting inactive, with `n ≥ 1` attempted feature units of
which `k` succeed, `enable_presentation_mode` reports success and
`is_presentation_mode_active` subsequently returns true iff `k ≥ 1` and
`k/n ≥ 0.5` (in this code `n` can only reach 2: the power-management unit
and the notification unit). -/
theorem C9_enable_success_iff (f : PresFeatures) (env : PowerEnv)
    (h : 1 ≤ attemptedFeatures f) :
    ((enable_presentation_mode f false env).1 = true ∧
     is_presentation_mode_active (enable_presentation_mode f false env).2 = true)
    ↔ (1 ≤ succeededFeatures f env ∧
       attemptedFeatures f ≤ 2 * succeededFeatures f env) := by
  unfold enable_presentation_mode is_presentation_mode_active
  simp only [Bool.false_eq_true, if_false, Bool.and_eq_true, decide_eq_true_iff,
    Bool.or_eq_true, beq_iff_eq, rat_half_le_iff]
  omega

/-- Witness for C9, the spec's own example: two units attempted
(power management and notifications), the power unit succeeds and the
notification unit fails — 1 of 2 is exactly the 50% bar, so the call
succeeds and the mode is active. -/
theorem C9_witness :
    1 ≤ attemptedFeatures ⟨true, false, true⟩ ∧
    (enable_presentation_mode ⟨true, false, true⟩ false
        ⟨true, true, true, true, true, false⟩).1 = true ∧
    is_presentation_mode_active
      (enable_presentation_mode ⟨true, false, true⟩ false
        ⟨true, true, true, true, true, false⟩).2 = true := by
  refine ⟨by decide, ?_⟩
  exact (C9_enable_success_iff ⟨true, false, true⟩ ⟨true, true, true, true, true, false⟩
    (by decide)).mpr (by decide)

/-- A playback-state check over all-indeterminate shapes never reports
playing. -/
lemma check_all_unknown_not_playing (shapes : List MediaShape)
    (h : ∀ m ∈ shapes, mediaPlayState m = none) :
    (check_media_playback_state shapes).1 = false := by
  unfold check_media_playback_state
  have hp : shapes.filter (fun m => mediaPlayState m == some 1) = [] := by
    rw [List.filter_eq_nil_iff]
    intro m hm
    simp [h m hm]
  simp only [hp, List.length_nil, lt_irrefl, if_false]
  split <;> rfl

/-- Claim C5: `should_suppress_screensaver` suppresses for a recognized
player window that is fullscreen with confirmed playback; it allows for
any non-fullscreen window when the large-window option is disabled (the
browser and slideshow steps also require fullscreen); and it allows for a
fullscreen window with playback confirmed not active when no other
heuristic step matches. -/
theorem C5_suppress_scenarios :
    (∀ (w : WindowInfo) (env : SuppressEnv) (slw : Bool) (now : ℚ) (cache : VideoCache),
       env.window = some w → is_video_player_window w = true → w.is_fullscreen = true →
       (is_video_playing now cache env.cpu).result = true →
       (should_suppress_screensaver slw now cache env).1 = true) ∧
    (∀ (w : WindowInfo) (env : SuppressEnv) (now : ℚ) (cache : VideoCache),
       env.window = some w → w.is_fullscreen = false →
       (should_suppress_screensaver false now cache env).1 = false) ∧
    (∀ (w : WindowInfo) (env : SuppressEnv) (slw : Bool) (now : ℚ) (cache : VideoCache),
       env.window = some w →
       (is_video_playing now cache env.cpu).result = false →
       is_youtube_fullscreen w = false →
       is_powerpoint_slideshow_running w = false →
       (should_suppress_screensaver slw now cache env).1 = false) := by
  refine ⟨?_, ?_, ?_⟩
  · intro w env slw now cache hw hp hf hr
    simp [should_suppress_screensaver, hw, hp, hf, hr]
  · intro w env now cache hw hf
    simp [should_suppress_screensaver, hw, hf, is_youtube_fullscreen,
      is_powerpoint_slideshow_running]
  · intro w env slw now cache hw hr hyt hppt
    simp [should_suppress_screensaver, hw, hr, hyt, hppt]

/-- Concrete probe evaluation: one vlc process at 50% CPU, sampled outside
the TTL, reads as playing. -/
lemma ivp_witness_high_eval :
    is_video_playing 10 ⟨0, false⟩ ⟨false, [⟨"vlc.exe", 50, 0, false⟩]⟩
      = ⟨true, ⟨10, true⟩, true⟩ := by
  unfold is_video_playing
  rw [if_neg (by norm_num)]
  rfl

/-- Concrete probe evaluation: no target process, sampled outside the TTL,
reads as not playing. -/
lemma ivp_witness_low_eval :
    is_video_playing 10 ⟨0, false⟩ ⟨false, []⟩ = ⟨false, ⟨10, false⟩, true⟩ := by
  unfold is_video_playing
  rw [if_neg (by norm_num)]
  rfl

/-- Witness for C5: a fullscreen VLC window with a high-CPU vlc process is
suppressed; the same window not fullscreen is not; the same fullscreen
window with no player process active is not. -/
theorem C5_witness :
    (should_suppress_screensaver false 10 ⟨0, false⟩
      ⟨some ⟨"VLC media player", "Qt5QWindowIcon", 1920, 1080, true⟩,
       ⟨false, [⟨"vlc.exe", 50, 0, false⟩]⟩, false, false, ⟨false, false, []⟩, 0⟩).1 = true ∧
    (should_suppress_screensaver false 10 ⟨0, false⟩
      ⟨some ⟨"VLC media player", "Qt5QWindowIcon", 1280, 720, false⟩,
       ⟨false, [⟨"vlc.exe", 50, 0, false⟩]⟩, false, false, ⟨false, false, []⟩, 0⟩).1 = false ∧
    (should_suppress_screensaver false 10 ⟨0, false⟩
      ⟨some ⟨"VLC media player", "Qt5QWindowIcon", 1920, 1080, true⟩,
       ⟨false, []⟩, false, false, ⟨false, false, []⟩, 0⟩).1 = false := by
  refine ⟨?_, ?_, ?_⟩
  · exact C5_suppress_scenarios.1 ⟨"VLC media player", "Qt5QWindowIcon", 1920, 1080, true⟩
      _ false 10 ⟨0, false⟩ rfl (by decide) rfl (by rw [ivp_witness_high_eval])
  · exact C5_suppress_scenarios.2.1 ⟨"VLC media player", "Qt5QWindowIcon", 1280, 720, false⟩
      _ 10 ⟨0, false⟩ rfl rfl
  · exact C5_suppress_scenarios.2.2 ⟨"VLC media player", "Qt5QWindowIcon", 1920, 1080, true⟩
      _ false 10 ⟨0, false⟩ rfl (by rw [ivp_witness_low_eval]) (by decide) (by decide)

/-- Claim C6: an all-indeterminate media set is reported not-playing by
`_check_media_playback_state` and never suppresses through the COM path;
and the PowerPoint step of `should_suppress_screensaver` can report
suppress only via a COM verdict — which itself requires some shape
conclusively in the playing state — or via the CPU fallback exceeding its
10% threshold (taken only when the COM path is unavailable or raised). -/
theorem C6_unknown_media_never_suppresses :
    (∀ shapes : List MediaShape, (∀ m ∈ shapes, mediaPlayState m = none) →
       (check_media_playback_state shapes).1 = false) ∧
    (∀ (b : Bool) (e : PptEnv), (∀ m ∈ e.shapes, mediaPlayState m = none) →
       is_powerpoint_video_playing b e = false) ∧
    (∀ env : SuppressEnv, powerpoint_step_verdict env = true →
       (env.pptComAvailable = true ∧ env.comCallRaises = false ∧
        is_powerpoint_video_playing env.pptComAvailable env.ppt = true) ∨
       10 < env.pptCpu) ∧
    (∀ shapes : List MediaShape, (check_media_playback_state shapes).1 = true →
       ∃ m, m ∈ shapes ∧ mediaPlayState m = some 1) := by
  refine ⟨check_all_unknown_not_playing, ?_, ?_, ?_⟩
  · intro b e h
    unfold is_powerpoint_video_playing
    cases b with
    | false => rfl
    | true =>
      simp only [Bool.not_true, Bool.false_eq_true, if_false]
      split
      · rfl
      · split
        · rfl
        · split
          · rfl
          · exact check_all_unknown_not_playing e.shapes h
  · intro env h
    unfold powerpoint_step_verdict at h
    by_cases hc : env.pptComAvailable = true
    · rw [if_pos hc] at h
      by_cases hr : env.comCallRaises = true
      · simp only [hr, Bool.not_true, Bool.false_eq_true, if_false,
          is_powerpoint_high_cpu, decide_eq_true_iff] at h
        exact Or.inr h
      · simp only [Bool.not_eq_true] at hr
        rw [hr] at h
        simp only [Bool.not_false, if_true] at h
        exact Or.inl ⟨hc, hr, h⟩
    · simp only [Bool.not_eq_true] at hc
      rw [hc, if_neg (by simp)] at h
      simp only [is_powerpoint_high_cpu, decide_eq_true_iff] at h
      exact Or.inr h
  · intro shapes h
    by_cases hp : 0 < (shapes.filter (fun m => mediaPlayState m == some 1)).length
    · obtain ⟨m, hm⟩ := List.exists_mem_of_length_pos hp
      rw [List.mem_filter] at hm
      exact ⟨m, hm.1, by simpa using hm.2⟩
    · exfalso
      unfold check_media_playback_state at h
      rw [if_neg hp] at h
      split at h <;> simp at h

/-- Witness for C6: one shape with no probe outcome is reported
not-playing both at the check and through the COM entry point; the CPU
fallback at 11% yields the step verdict with the COM path unavailable;
and a shape found in state 1 makes the check report playing. -/
theorem C6_witness :
    (check_media_playback_state [⟨none, none⟩]).1 = false ∧
    is_powerpoint_video_playing true ⟨true, true, [⟨none, none⟩]⟩ = false ∧
    (((⟨none, ⟨false, []⟩, false, false, ⟨false, false, []⟩, 11⟩ : SuppressEnv).pptComAvailable = true ∧
       (⟨none, ⟨false, []⟩, false, false, ⟨false, false, []⟩, 11⟩ : SuppressEnv).comCallRaises = false ∧
       is_powerpoint_video_playing
         (⟨none, ⟨false, []⟩, false, false, ⟨false, false, []⟩, 11⟩ : SuppressEnv).pptComAvailable
         (⟨none, ⟨false, []⟩, false, false, ⟨false, false, []⟩, 11⟩ : SuppressEnv).ppt = true) ∨
      10 < (⟨none, ⟨false, []⟩, false, false, ⟨false, false, []⟩, 11⟩ : SuppressEnv).pptCpu) ∧
    (∃ m, m ∈ [(⟨some 1, none⟩ : MediaShape)] ∧ mediaPlayState m = some 1) := by
  refine ⟨?_, ?_, ?_, ?_⟩
  · exact C6_unknown_media_never_suppresses.1 [⟨none, none⟩] (by decide)
  · exact C6_unknown_media_never_suppresses.2.1 true ⟨true, true, [⟨none, none⟩]⟩ (by decide)
  · exact C6_unknown_media_never_suppresses.2.2.1
      ⟨none, ⟨false, []⟩, false, false, ⟨false, false, []⟩, 11⟩
      (by unfold powerpoint_step_verdict is_powerpoint_high_cpu
          norm_num)
  · exact C6_unknown_media_never_suppresses.2.2.2 [⟨some 1, none⟩] (by decide)

/-- A call within the TTL of the cached timestamp is served from the
cache: same result, cache untouched, no re-sampling. -/
lemma ivp_hit (t : ℚ) (c : VideoCache) (e : CpuEnv) (h : t - c.timestamp < 3/2) :
    is_video_playing t c e = ⟨c.result, c, false⟩ := by
  unfold is_video_playing
  rw [if_pos h]

/-- A call at or after TTL expiry re-runs the probe and overwrites the
cache with the entry time and the fresh result. -/
lemma ivp_miss (t : ℚ) (c : VideoCache) (e : CpuEnv) (h : ¬(t - c.timestamp < 3/2)) :
    (is_video_playing t c e).sampled = true ∧
    (is_video_playing t c e).cache = ⟨t, (is_video_playing t c e).result⟩ := by
  unfold is_video_playing
  rw [if_neg h]
  by_cases hf : e.iterFails = true
  · simp [hf]
  · simp only [Bool.not_eq_true] at hf
    rw [hf]
    simp only [Bool.false_eq_true, if_false]
    by_cases he : (videoTargets e).isEmpty = true
    · simp [he]
    · simp only [Bool.not_eq_true] at he
      rw [he]
      simp

/-- Claim C7, counterexample: with a still-valid cache entry stamped at
t = 0 holding `true`, a first call at t = 1.4 is a cache hit returning
`true` without sampling; a second call at t = 2.0 — only 0.6 s later,
within the claimed 1.5 s window — nevertheless re-runs the sampling and
returns `false`, because the TTL is measured from the cached timestamp,
not from the previous call. -/
theorem C7_counterexample :
    ((2 : ℚ) - 7/5 < 3/2) ∧
    (is_video_playing (7/5) ⟨0, true⟩ ⟨false, []⟩).sampled = false ∧
    (is_video_playing (7/5) ⟨0, true⟩ ⟨false, []⟩).result = true ∧
    (is_video_playing 2 (is_video_playing (7/5) ⟨0, true⟩ ⟨false, []⟩).cache
       ⟨false, []⟩).sampled = true ∧
    (is_video_playing 2 (is_video_playing (7/5) ⟨0, true⟩ ⟨false, []⟩).cache
       ⟨false, []⟩).result = false := by
  have h1 : is_video_playing (7/5) ⟨0, true⟩ ⟨false, []⟩ = ⟨true, ⟨0, true⟩, false⟩ :=
    ivp_hit (7/5) ⟨0, true⟩ ⟨false, []⟩ (by norm_num)
  have h2 : is_video_playing 2 (⟨0, true⟩ : VideoCache) ⟨false, []⟩
      = ⟨false, ⟨2, false⟩, true⟩ := by
    unfold is_video_playing
    rw [if_neg (by norm_num)]
    rfl
  refine ⟨by norm_num, ?_, ?_, ?_, ?_⟩
  · rw [h1]
  · rw [h1]
  · rw [h1, h2]
  · rw [h1, h2]

/-- Claim C7, amended: a call within 1.5 s of the cached timestamp is
served from the cache without re-running the CPU sampling and leaves the
cache unchanged — in particular, when a first call itself resampled, any
second call less than 1.5 s after it returns the first call's result
without sampling; and every call at or after TTL expiry (measured from
the cached timestamp) re-runs the sampling and overwrites both the cached
timestamp and the cached result. -/
theorem C7_cache_ttl (t1 t2 : ℚ) (c : VideoCache) (e1 e2 : CpuEnv)
    (hmiss : 3/2 ≤ t1 - c.timestamp) (hnear : t2 - t1 < 3/2) :
    ((is_video_playing t1 c e1).sampled = true ∧
     (is_video_playing t1 c e1).cache = ⟨t1, (is_video_playing t1 c e1).result⟩) ∧
    (is_video_playing t2 (is_video_playing t1 c e1).cache e2
       = ⟨(is_video_playing t1 c e1).result, (is_video_playing t1 c e1).cache, false⟩) ∧
    (∀ (t : ℚ) (c' : VideoCache) (e : CpuEnv), t - c'.timestamp < 3/2 →
       is_video_playing t c' e = ⟨c'.result, c', false⟩) := by
  have hm := ivp_miss t1 c e1 (not_lt.mpr hmiss)
  refine ⟨hm, ?_, ivp_hit⟩
  rw [hm.2]
  exact ivp_hit t2 ⟨t1, (is_video_playing t1 c e1).result⟩ e2 (by simpa using hnear)

/-- Witness for C7: cache stamped at 0, first call at t = 2 (outside the
TTL, so it resamples and restamps), second call at t = 2.5 (within 1.5 s
of the restamp, so it is a cache hit). -/
theorem C7_witness :
    ((3 : ℚ)/2 ≤ 2 - (0 : ℚ)) ∧
    ((5 : ℚ)/2 - 2 < 3/2) ∧
    (is_video_playing 2 ⟨0, false⟩ ⟨false, []⟩).sampled = true ∧
    (is_video_playing (5/2) (is_video_playing 2 ⟨0, false⟩ ⟨false, []⟩).cache ⟨false, []⟩
       = ⟨(is_video_playing 2 ⟨0, false⟩ ⟨false, []⟩).result,
          (is_video_playing 2 ⟨0, false⟩ ⟨false, []⟩).cache, false⟩) := by
  have h := C7_cache_ttl 2 (5/2) ⟨0, false⟩ ⟨false, []⟩ ⟨false, []⟩
    (by norm_num) (by norm_num)
  exact ⟨by norm_num, by norm_num, h.1.1, h.2.1⟩
